import Mathlib

/-!
Shallow embedding of the loan-eligibility webhook (src/main.py) and proofs
of the specification claims about it.

JSON-like Python values are modelled by the inductive type `Value`; a Python
dict is an association list `PDict` with first-match lookup, Python-style
insertion (`PDict.insert`) and `dict.update` (`PDict.update`).  A Python
`None` result of a function is modelled by `Option.none`; an uncaught
exception (such as `int` applied to a non-numeric string) is modelled by the
whole handler returning `none`.
-/

/-- JSON-like value as delivered by the platform and handled by the Python
code: null, boolean, integer number, string, list, or object. -/
inductive Value where
  | vNull : Value
  | vBool : Bool → Value
  | vInt : Int → Value
  | vStr : String → Value
  | vList : List Value → Value
  | vDict : List (String × Value) → Value

mutual

def decEqValue : (a b : Value) → Decidable (a = b)
  | .vNull, .vNull => isTrue rfl
  | .vNull, .vBool _ => isFalse (fun h => Value.noConfusion h)
  | .vNull, .vInt _ => isFalse (fun h => Value.noConfusion h)
  | .vNull, .vStr _ => isFalse (fun h => Value.noConfusion h)
  | .vNull, .vList _ => isFalse (fun h => Value.noConfusion h)
  | .vNull, .vDict _ => isFalse (fun h => Value.noConfusion h)
  | .vBool _, .vNull => isFalse (fun h => Value.noConfusion h)
  | .vBool x, .vBool y =>
    if h : x = y then isTrue (by rw [h]) else isFalse (fun e => h (Value.vBool.inj e))
  | .vBool _, .vInt _ => isFalse (fun h => Value.noConfusion h)
  | .vBool _, .vStr _ => isFalse (fun h => Value.noConfusion h)
  | .vBool _, .vList _ => isFalse (fun h => Value.noConfusion h)
  | .vBool _, .vDict _ => isFalse (fun h => Value.noConfusion h)
  | .vInt _, .vNull => isFalse (fun h => Value.noConfusion h)
  | .vInt _, .vBool _ => isFalse (fun h => Value.noConfusion h)
  | .vInt x, .vInt y =>
    if h : x = y then isTrue (by rw [h]) else isFalse (fun e => h (Value.vInt.inj e))
  | .vInt _, .vStr _ => isFalse (fun h => Value.noConfusion h)
  | .vInt _, .vList _ => isFalse (fun h => Value.noConfusion h)
  | .vInt _, .vDict _ => isFalse (fun h => Value.noConfusion h)
  | .vStr _, .vNull => isFalse (fun h => Value.noConfusion h)
  | .vStr _, .vBool _ => isFalse (fun h => Value.noConfusion h)
  | .vStr _, .vInt _ => isFalse (fun h => Value.noConfusion h)
  | .vStr x, .vStr y =>
    if h : x = y then isTrue (by rw [h]) else isFalse (fun e => h (Value.vStr.inj e))
  | .vStr _, .vList _ => isFalse (fun h => Value.noConfusion h)
  | .vStr _, .vDict _ => isFalse (fun h => Value.noConfusion h)
  | .vList _, .vNull => isFalse (fun h => Value.noConfusion h)
  | .vList _, .vBool _ => isFalse (fun h => Value.noConfusion h)
  | .vList _, .vInt _ => isFalse (fun h => Value.noConfusion h)
  | .vList _, .vStr _ => isFalse (fun h => Value.noConfusion h)
  | .vList xs, .vList ys =>
    match decEqValueList xs ys with
    | isTrue h => isTrue (by rw [h])
    | isFalse h => isFalse (fun e => h (Value.vList.inj e))
  | .vList _, .vDict _ => isFalse (fun h => Value.noConfusion h)
  | .vDict _, .vNull => isFalse (fun h => Value.noConfusion h)
  | .vDict _, .vBool _ => isFalse (fun h => Value.noConfusion h)
  | .vDict _, .vInt _ => isFalse (fun h => Value.noConfusion h)
  | .vDict _, .vStr _ => isFalse (fun h => Value.noConfusion h)
  | .vDict _, .vList _ => isFalse (fun h => Value.noConfusion h)
  | .vDict fs, .vDict gs =>
    match decEqValueFields fs gs with
    | isTrue h => isTrue (by rw [h])
    | isFalse h => isFalse (fun e => h (Value.vDict.inj e))

def decEqValueList : (a b : List Value) → Decidable (a = b)
  | [], [] => isTrue rfl
  | [], _ :: _ => isFalse (fun h => List.noConfusion h)
  | _ :: _, [] => isFalse (fun h => List.noConfusion h)
  | x :: xs, y :: ys =>
    match decEqValue x y with
    | isFalse h1 => isFalse (by intro e; injection e with e1 e2; exact h1 e1)
    | isTrue h1 =>
      match decEqValueList xs ys with
      | isTrue h2 => isTrue (by rw [h1, h2])
      | isFalse h2 => isFalse (by intro e; injection e with e1 e2; exact h2 e2)

def decEqValueFields : (a b : List (String × Value)) → Decidable (a = b)
  | [], [] => isTrue rfl
  | [], _ :: _ => isFalse (fun h => List.noConfusion h)
  | _ :: _, [] => isFalse (fun h => List.noConfusion h)
  | (k1, v1) :: t1, (k2, v2) :: t2 =>
    if hk : k1 = k2 then
      match decEqValue v1 v2 with
      | isFalse hv => isFalse (by intro e; injection e with e1 e2; exact hv (congrArg Prod.snd e1))
      | isTrue hv =>
        match decEqValueFields t1 t2 with
        | isTrue ht => isTrue (by rw [hk, hv, ht])
        | isFalse ht => isFalse (by intro e; injection e with e1 e2; exact ht e2)
    else isFalse (by intro e; injection e with e1 e2; exact hk (congrArg Prod.fst e1))

end

instance : DecidableEq Value := decEqValue

/-- A Python dict with string keys, as an association list. -/
abbrev PDict := List (String × Value)

namespace PDict

/-- Dict lookup: first binding of the key (a Python dict has at most one). -/
def get (d : PDict) (k : String) : Option Value :=
  (d.find? (fun p => p.1 == k)).map (fun p => p.2)

/-- Python `d[k] = v`: overwrite the binding in place if the key is present,
otherwise append it. -/
def insert (d : PDict) (k : String) (v : Value) : PDict :=
  if d.any (fun p => p.1 == k) then
    d.map (fun p => if p.1 == k then (k, v) else p)
  else
    d ++ [(k, v)]

/-- Python `d.update(other)`: insert every binding of `other`, in order. -/
def update (d other : PDict) : PDict :=
  other.foldl (fun acc kv => acc.insert kv.1 kv.2) d

end PDict

/-- Last binding of a key in an association list, if any.  Used to state
lookup properties of `PDict.update`. -/
def lookupLast : PDict → String → Option Value
  | [], _ => none
  | (k₁, v₁) :: t, k =>
    match lookupLast t k with
    | some w => some w
    | none => if k₁ = k then some v₁ else none

/-- Left-biased choice on optional values. -/
def oalt (a b : Option Value) : Option Value :=
  match a with
  | some v => some v
  | none => b

/-- Python truthiness of a value: `None`, `False`, `0`, the empty string,
the empty list and the empty dict are falsy, everything else is truthy. -/
def Value.truthy : Value → Bool
  | .vNull => false
  | .vBool b => b
  | .vInt n => !(n == 0)
  | .vStr s => !(s == "")
  | .vList xs => !xs.isEmpty
  | .vDict fs => !fs.isEmpty

/-- Python `params.get(k)`: `None` both when the key is absent and when the
stored value is `None`, so both are collapsed to `Option.none`. -/
def pyGet (d : PDict) (k : String) : Option Value :=
  match d.get k with
  | some .vNull => none
  | o => o

/-- Truthiness of `params.get(k)` (absent keys are falsy). -/
def truthyKey (d : PDict) (k : String) : Bool :=
  match PDict.get d k with
  | some v => v.truthy
  | none => false

/-- Substring containment on character lists. -/
def listContainsSub (needle : List Char) : List Char → Bool
  | [] => needle.isEmpty
  | c :: t => needle.isPrefixOf (c :: t) || listContainsSub needle t

/-- Python `needle in hay` for strings: substring containment. -/
def strContains (hay needle : String) : Bool :=
  listContainsSub needle.data hay.data

/-- Python `s.lower()` (ASCII case folding, which covers all inputs the
program compares). -/
def strToLower (s : String) : String :=
  String.mk (s.data.map Char.toLower)

/-- Python `int(s)` on a string: optional surrounding whitespace, optional
sign, then decimal digits; anything else raises (modelled as `none`). -/
def digitsToNat (l : List Char) : Option Nat :=
  if l.isEmpty then none
  else if l.all Char.isDigit then
    some (l.foldl (fun a c => a * 10 + (c.toNat - 48)) 0)
  else none

/-- Strip leading and trailing whitespace, as Python `int` does before
parsing a string. -/
def trimChars (l : List Char) : List Char :=
  ((l.dropWhile Char.isWhitespace).reverse.dropWhile Char.isWhitespace).reverse

def pyIntOfString (s : String) : Option Int :=
  match trimChars s.data with
  | [] => none
  | '+' :: rest => (digitsToNat rest).map Int.ofNat
  | '-' :: rest => (digitsToNat rest).map (fun n => -(n : Int))
  | l => (digitsToNat l).map Int.ofNat

/-- Python `int(v)`: integers pass through, booleans become 0 or 1, numeric
strings are parsed, and every other shape raises (modelled as `none`). -/
def pyInt : Value → Option Int
  | .vInt n => some n
  | .vBool b => some (if b then 1 else 0)
  | .vStr s => pyIntOfString s
  | _ => none

mutual

/-- Python `repr` of a value (enough of it for the `str` conversions the
program performs on non-string values). -/
def valueRepr : Value → String
  | .vNull => "None"
  | .vBool true => "True"
  | .vBool false => "False"
  | .vInt n => toString n
  | .vStr s => "\x27" ++ s ++ "\x27"
  | .vList xs => "[" ++ valueListRepr xs ++ "]"
  | .vDict fs => "\x7b" ++ valueFieldsRepr fs ++ "\x7d"

def valueListRepr : List Value → String
  | [] => ""
  | [x] => valueRepr x
  | x :: xs => valueRepr x ++ ", " ++ valueListRepr xs

def valueFieldsRepr : List (String × Value) → String
  | [] => ""
  | [(k, v)] => "\x27" ++ k ++ "\x27: " ++ valueRepr v
  | (k, v) :: fs => "\x27" ++ k ++ "\x27: " ++ valueRepr v ++ ", " ++ valueFieldsRepr fs

end

/-- Python `str(v)`: a string is returned as is, anything else via `repr`
(booleans and `None` print their names, numbers their digits). -/
def pyStr : Value → String
  | .vStr s => s
  | v => valueRepr v

/-- A prior-turn context record (`Context` pydantic model in main.py). -/
structure Context where
  name : String
  lifespanCount : Option Int := none
  parameters : PDict := []
deriving DecidableEq

/-- `QueryResult` pydantic model in main.py. -/
structure QueryResult where
  parameters : PDict
  intent : PDict := []
  output_contexts : List Context := []
deriving DecidableEq

/-- `WebhookRequest` pydantic model in main.py. -/
structure WebhookRequest where
  query_result : QueryResult
deriving DecidableEq

/-- The condition under which a context participates in the merge
(main.py line 42): its name contains the marker substring and its
parameters dict is truthy, i.e. non-empty. -/
def matchCtx (c : Context) : Bool :=
  strContains c.name "awaiting-loan-details" && !c.parameters.isEmpty

/-- `get_merged_parameters` (main.py lines 31-49): overlay the parameters
of every matching context in order, then the current-turn parameters. -/
def get_merged_parameters (query_result : QueryResult) : PDict :=
  let merged := query_result.output_contexts.foldl
    (fun acc c => if matchCtx c then PDict.update acc c.parameters else acc) []
  PDict.update merged query_result.parameters

/-- `determine_loan_type` (main.py lines 51-67). -/
def determine_loan_type (params : PDict) : Option Value :=
  if truthyKey params "loan-type" then PDict.get params "loan-type"
  else if truthyKey params "Home_eligibility" then some (.vStr "home")
  else if truthyKey params "Car_eligibility" then some (.vStr "car")
  else if truthyKey params "education_eligibility" || truthyKey params "edu_eligibility" then
    some (.vStr "education")
  else if truthyKey params "personal_eligibility" then some (.vStr "personal")
  else if truthyKey params "Business_eligibility" then some (.vStr "business")
  else none

/-- Key resolution step of `get_parameter` (main.py lines 73-75): the primary
key, then — when that gave `None` and the fallback name is truthy — the
fallback key. -/
def resolveParam (params : PDict) (param_name : String) (fallback_name : Option String) :
    Option Value :=
  match pyGet params param_name with
  | some v => some v
  | none =>
    match fallback_name with
    | some f => if f = "" then none else pyGet params f
    | none => none

/-- Value unwrapping step of `get_parameter` (main.py lines 77-92): a dict
with an `amount` field yields that field, a non-empty list its head, the
empty string `None`, everything else itself.  A resulting Python `None`
(null amount or null head) is collapsed to `Option.none`. -/
def unwrapValue : Value → Option Value
  | .vNull => none
  | .vDict fs =>
    match PDict.get fs "amount" with
    | some a => if a = .vNull then none else some a
    | none => some (.vDict fs)
  | .vList (x :: _) => if x = .vNull then none else some x
  | .vList [] => some (.vList [])
  | .vStr s => if s = "" then none else some (.vStr s)
  | .vInt n => some (.vInt n)
  | .vBool b => some (.vBool b)

/-- `get_parameter` (main.py lines 69-92). -/
def get_parameter (params : PDict) (param_name : String)
    (fallback_name : Option String := none) : Option Value :=
  (resolveParam params param_name fallback_name).bind unwrapValue

/-! Response strings, verbatim from main.py. -/

def undeterminedMsg : String :=
  "I\x27m sorry, I couldn\x27t determine the loan type. Please specify if it\x27s for a car, home, education, business, or personal use."

def homeEligibleMsg : String :=
  "Excellent! Based on your age and income, you are eligible for a home loan."

def homeIneligibleMsg : String :=
  "Sorry, you do not meet the criteria for a home loan. You must be at least 21 years old and have a minimum monthly income of ₹30,000."

def homeMissingMsg : String :=
  "To check your home loan eligibility, I need a few more details. What is your age and your monthly income?(e.g., My age is ** and I make ****)"

def carEligibleMsg : String :=
  "Great news! You are eligible for a car loan."

def carIneligibleMsg : String :=
  "Sorry, you do not meet the criteria for a car loan. You must be at least 18 years old and have a minimum monthly income of ₹20,000."

def carMissingMsg : String :=
  "To check your eligibility for a car loan, I need to know your age and monthly income(e.g., My age is ** and I make ****)."

def personalEligibleMsg : String :=
  "Great news! You are eligible for a personal loan."

def personalIneligibleMsg : String :=
  "Sorry, you do not meet the criteria for a personal loan. You must be at least 25 years old and have a minimum monthly income of ₹25,000."

def personalMissingMsg : String :=
  "To check your eligibility for a personal loan, I need to know your age and monthly income(e.g., My age is ** and I make ****)."

def eduEligibleMsg : String :=
  "Congratulations! You are eligible for an education loan."

def eduIneligibleMsg : String :=
  "Sorry, you do not meet the criteria for an education loan. You must be a graduate and no older than 30."

def eduMissingMsg : String :=
  "To check your eligibility for an education loan, I need your age and qualification (e.g.,My age is ** and \x27under graduate\x27or \x27post graduate\x27)."

def bizEligibleMsg : String :=
  "Fantastic! You are eligible for a business loan."

def bizIneligibleMsg : String :=
  "Sorry, to be eligible for a business loan, your minimum monthly income must be at least ₹40,000."

def bizMissingMsg : String :=
  "To check your eligibility for a business loan, I need to know your monthly income(e.g., My age is ** and I make ****)."

/-! The five `elif` branch bodies of the webhook (main.py lines 126-170).
Each takes the already-extracted optional attribute values.  `int(x)`
raising on a non-coercible value is modelled by the branch returning
`none`; Python\x27s `and` short-circuits, so the second coercion only
happens when the first comparison succeeded. -/

def evalHome : Option Value → Option Value → Option String
  | some a, some i =>
    (match pyInt a with
     | some ia =>
       if ia ≥ 21 then
         match pyInt i with
         | some ii => some (if ii ≥ 30000 then homeEligibleMsg else homeIneligibleMsg)
         | none => none
       else some homeIneligibleMsg
     | none => none)
  | _, _ => some homeMissingMsg

def evalCar : Option Value → Option Value → Option String
  | some a, some i =>
    (match pyInt a with
     | some ia =>
       if ia ≥ 18 then
         match pyInt i with
         | some ii => some (if ii ≥ 20000 then carEligibleMsg else carIneligibleMsg)
         | none => none
       else some carIneligibleMsg
     | none => none)
  | _, _ => some carMissingMsg

def evalPersonal : Option Value → Option Value → Option String
  | some a, some i =>
    (match pyInt a with
     | some ia =>
       if ia ≥ 25 then
         match pyInt i with
         | some ii => some (if ii ≥ 25000 then personalEligibleMsg else personalIneligibleMsg)
         | none => none
       else some personalIneligibleMsg
     | none => none)
  | _, _ => some personalMissingMsg

def evalEducation : Option Value → Option Value → Option String
  | some a, some q =>
    (if strContains (strToLower (pyStr q)) "graduate" then
       match pyInt a with
       | some ia => some (if ia ≤ 30 then eduEligibleMsg else eduIneligibleMsg)
       | none => none
     else some eduIneligibleMsg)
  | _, _ => some eduMissingMsg

def evalBusiness : Option Value → Option String
  | some i =>
    (match pyInt i with
     | some ii => some (if ii ≥ 40000 then bizEligibleMsg else bizIneligibleMsg)
     | none => none)
  | none => some bizMissingMsg

/-- Merged parameters of a request. -/
def mergedOf (r : WebhookRequest) : PDict :=
  get_merged_parameters r.query_result

/-- Derived loan type of a request (main.py line 111). -/
def loanTypeOf (r : WebhookRequest) : Option Value :=
  determine_loan_type (mergedOf r)

/-- Extracted age of a request (main.py line 117). -/
def ageOf (r : WebhookRequest) : Option Value :=
  get_parameter (mergedOf r) "age" (some "number")

/-- Extracted income of a request (main.py line 118). -/
def incomeOf (r : WebhookRequest) : Option Value :=
  get_parameter (mergedOf r) "income" (some "number")

/-- Extracted qualification of a request (main.py line 119). -/
def qualificationOf (r : WebhookRequest) : Option Value :=
  get_parameter (mergedOf r) "qualification" none

/-- `loan_eligibility_webhook` (main.py lines 96-177): the fulfillment text,
or `none` when the handler raises an uncaught exception. -/
def loan_eligibility_webhook (r : WebhookRequest) : Option String :=
  if loanTypeOf r = some (.vStr "home") then evalHome (ageOf r) (incomeOf r)
  else if loanTypeOf r = some (.vStr "car") then evalCar (ageOf r) (incomeOf r)
  else if loanTypeOf r = some (.vStr "personal") then evalPersonal (ageOf r) (incomeOf r)
  else if loanTypeOf r = some (.vStr "education") then evalEducation (ageOf r) (qualificationOf r)
  else if loanTypeOf r = some (.vStr "business") then evalBusiness (incomeOf r)
  else some undeterminedMsg

/-- The parameter lists of the matching contexts of a request, concatenated
in order. -/
def matchingContextParams (query_result : QueryResult) : PDict :=
  ((query_result.output_contexts.filter matchCtx).map Context.parameters).flatten

/-- Unwrapping enumerated as the claims state it: null stays null, a
structured object containing an `amount` field yields that field, a
non-empty list its first element, the empty string null, anything else
itself. -/
def unwrapClaimed : Value → Option Value
  | .vNull => none
  | .vDict fs =>
    match PDict.get fs "amount" with
    | some a => if a = .vNull then none else some a
    | none => some (.vDict fs)
  | .vList (x :: _) => if x = .vNull then none else some x
  | .vList [] => some (.vList [])
  | .vStr s => if s = "" then none else some (.vStr s)
  | .vInt n => some (.vInt n)
  | .vBool b => some (.vBool b)

/-- `get_parameter` as the C8 claim words it: the fallback key is consulted
whenever the primary key is absent or null, with no condition on the
fallback name itself. -/
def getParameterClaimed (params : PDict) (param_name : String)
    (fallback_name : Option String) : Option Value :=
  (match pyGet params param_name with
   | some v => some v
   | none =>
     match fallback_name with
     | some f => pyGet params f
     | none => none).bind unwrapClaimed

/-- `get_parameter` as amended: the fallback key is consulted only when the
primary key is absent or null and the fallback name is a non-empty
string (the code treats an empty fallback name as no fallback). -/
def getParameterAmended (params : PDict) (param_name : String)
    (fallback_name : Option String) : Option Value :=
  (match pyGet params param_name with
   | some v => some v
   | none =>
     match fallback_name with
     | some f => if f = "" then none else pyGet params f
     | none => none).bind unwrapClaimed

/-! Concrete requests used as witnesses and counterexamples.  `simpleReq ps`
is a request whose current turn carries exactly the parameters `ps`, with
no prior contexts. -/

def simpleReq (ps : PDict) : WebhookRequest := ⟨⟨ps, [], []⟩⟩

def homeOkReq : WebhookRequest :=
  simpleReq [("loan-type", .vStr "home"), ("age", .vInt 25), ("income", .vInt 35000)]

def homeMissReq : WebhookRequest :=
  simpleReq [("loan-type", .vStr "home"), ("income", .vInt 35000)]

def homeEmptyAgeReq : WebhookRequest :=
  simpleReq [("loan-type", .vStr "home"), ("age", .vStr ""), ("income", .vInt 35000)]

def eduReqUG : WebhookRequest :=
  simpleReq [("loan-type", .vStr "education"), ("age", .vInt 30),
    ("qualification", .vStr "Under Graduate")]

def eduReqHS : WebhookRequest :=
  simpleReq [("loan-type", .vStr "education"), ("age", .vInt 30),
    ("qualification", .vStr "High School")]

def eduReqPG31 : WebhookRequest :=
  simpleReq [("loan-type", .vStr "education"), ("age", .vInt 31),
    ("qualification", .vStr "Post Graduate")]

def bizReq40000 : WebhookRequest :=
  simpleReq [("loan-type", .vStr "business"), ("income", .vInt 40000)]

def bizReq39999 : WebhookRequest :=
  simpleReq [("loan-type", .vStr "business"), ("income", .vInt 39999)]

def eduEmptyListReq : WebhookRequest :=
  simpleReq [("loan-type", .vStr "education"), ("age", .vInt 25),
    ("qualification", .vList [])]

def bizEmptyListReq : WebhookRequest :=
  simpleReq [("loan-type", .vStr "business"), ("income", .vList [])]

/-- Request whose home-loan age is a non-numeric string: `int("abc")`
raises in the Python handler. -/
def nonNumericAgeReq : WebhookRequest :=
  simpleReq [("loan-type", .vStr "home"), ("age", .vStr "abc"), ("income", .vInt 30000)]

/-- Query from the spec example: a matching context remembers income 10000,
the current turn provides income 50000. -/
def overrideQuery : QueryResult :=
  ⟨[("income", .vInt 50000)], [],
    [⟨"awaiting-loan-details", none, [("income", .vInt 10000)]⟩]⟩

/-- Request with two eligibility flags set at once (home and car): the
first check in the ordered chain decides. -/
def twoFlagsReq : WebhookRequest :=
  simpleReq [("Home_eligibility", .vBool true), ("Car_eligibility", .vBool true)]

/-- Request setting none of the loan-type keys. -/
def noFlagsReq : WebhookRequest := simpleReq [("age", .vInt 25)]

/-! ### Lemmas about `PDict` lookup, insertion and update -/

theorem oalt_none_left (b : Option Value) : oalt none b = b := rfl

theorem oalt_none_right (a : Option Value) : oalt a none = a := by
  cases a <;> rfl

theorem oalt_assoc (a b c : Option Value) :
    oalt (oalt a b) c = oalt a (oalt b c) := by
  cases a <;> rfl

theorem PDict.get_nil (k : String) : PDict.get [] k = none := rfl

theorem PDict.get_cons (p : String × Value) (t : PDict) (k : String) :
    PDict.get (p :: t) k = if p.1 = k then some p.2 else PDict.get t k := by
  by_cases hp : p.1 = k <;> simp [PDict.get, List.find?_cons, hp]

theorem PDict.insert_cons_ne (p : String × Value) (t : PDict) (k : String) (v : Value)
    (hp : p.1 ≠ k) :
    PDict.insert (p :: t) k v = p :: PDict.insert t k v := by
  by_cases ht : t.any (fun q => q.1 == k) <;>
    simp [PDict.insert, List.any_cons, hp, ht]

theorem PDict.get_map_subst (t : PDict) (k : String) (v : Value) (k' : String)
    (h : k' ≠ k) :
    PDict.get (t.map (fun p => if p.1 == k then (k, v) else p)) k' = PDict.get t k' := by
  induction t with
  | nil => rfl
  | cons q t ih =>
    rw [List.map_cons, PDict.get_cons, PDict.get_cons]
    by_cases hq : q.1 = k
    · have h1 : (if (q.1 == k) = true then (k, v) else q) = (k, v) := by simp [hq]
      rw [h1, if_neg (show ¬((k, v).1 = k') from fun e => h e.symm),
        if_neg (show ¬(q.1 = k') from fun e => h (e.symm.trans hq))]
      exact ih
    · have h1 : (if (q.1 == k) = true then (k, v) else q) = q := by simp [hq]
      rw [h1]
      by_cases hq' : q.1 = k'
      · rw [if_pos hq', if_pos hq']
      · rw [if_neg hq', if_neg hq']
        exact ih

theorem PDict.insert_nil (k : String) (v : Value) :
    PDict.insert [] k v = [(k, v)] := rfl

theorem PDict.insert_cons_self (p : String × Value) (t : PDict) (k : String) (v : Value)
    (hp : p.1 = k) :
    PDict.insert (p :: t) k v
      = (k, v) :: t.map (fun q => if q.1 == k then (k, v) else q) := by
  simp [PDict.insert, List.any_cons, hp]

theorem PDict.get_insert_self (d : PDict) (k : String) (v : Value) :
    (PDict.insert d k v).get k = some v := by
  induction d with
  | nil => rw [PDict.insert_nil, PDict.get_cons, if_pos rfl]
  | cons p t ih =>
    by_cases hp : p.1 = k
    · rw [PDict.insert_cons_self p t k v hp, PDict.get_cons, if_pos rfl]
    · rw [PDict.insert_cons_ne p t k v hp, PDict.get_cons, if_neg hp]
      exact ih

theorem PDict.get_insert_ne (d : PDict) (k : String) (v : Value) (k' : String)
    (h : k' ≠ k) :
    (PDict.insert d k v).get k' = PDict.get d k' := by
  induction d with
  | nil =>
    rw [PDict.insert_nil, PDict.get_cons,
      if_neg (show ¬((k, v).1 = k') from fun e => h e.symm)]
  | cons p t ih =>
    by_cases hp : p.1 = k
    · rw [PDict.insert_cons_self p t k v hp, PDict.get_cons, PDict.get_cons,
        if_neg (show ¬((k, v).1 = k') from fun e => h e.symm),
        if_neg (show ¬(p.1 = k') from fun e => h (e.symm.trans hp)),
        PDict.get_map_subst t k v k' h]
    · rw [PDict.insert_cons_ne p t k v hp, PDict.get_cons, PDict.get_cons]
      by_cases hq : p.1 = k'
      · rw [if_pos hq, if_pos hq]
      · rw [if_neg hq, if_neg hq]
        exact ih

theorem PDict.update_cons (d : PDict) (p : String × Value) (t : PDict) :
    PDict.update d (p :: t) = PDict.update (PDict.insert d p.1 p.2) t := rfl

theorem PDict.get_update (d other : PDict) (k : String) :
    (PDict.update d other).get k = oalt (lookupLast other k) (PDict.get d k) := by
  induction other generalizing d with
  | nil => simp [PDict.update, lookupLast, oalt]
  | cons p t ih =>
    rw [PDict.update_cons, ih]
    cases hl : lookupLast t k with
    | some w => simp [lookupLast, hl, oalt]
    | none =>
      by_cases hpk : p.1 = k
      · rw [← hpk, PDict.get_insert_self]
        simp [lookupLast, hl, oalt, hpk]
      · rw [PDict.get_insert_ne d p.1 p.2 k (Ne.symm hpk)]
        simp [lookupLast, hl, oalt, hpk]

theorem lookupLast_cons (p : String × Value) (t : PDict) (k : String) :
    lookupLast (p :: t) k =
      match lookupLast t k with
      | some w => some w
      | none => if p.1 = k then some p.2 else none := rfl

theorem lookupLast_append (a b : PDict) (k : String) :
    lookupLast (a ++ b) k = oalt (lookupLast b k) (lookupLast a k) := by
  induction a with
  | nil => simp [lookupLast, oalt_none_right]
  | cons p t ih =>
    rw [List.cons_append, lookupLast_cons, lookupLast_cons, ih]
    cases hb : lookupLast b k with
    | some u => cases hl : lookupLast t k <;> simp [oalt]
    | none => cases hl : lookupLast t k <;> simp [oalt]

theorem PDict.get_eq_none_of_not_mem (d : PDict) (k : String)
    (h : k ∉ d.map Prod.fst) : PDict.get d k = none := by
  induction d with
  | nil => rfl
  | cons p t ih =>
    simp only [List.map_cons, List.mem_cons] at h
    push_neg at h
    rw [PDict.get_cons]
    simp [Ne.symm h.1, ih h.2]

theorem lookupLast_eq_none_of_not_mem (d : PDict) (k : String)
    (h : k ∉ d.map Prod.fst) : lookupLast d k = none := by
  induction d with
  | nil => rfl
  | cons p t ih =>
    simp only [List.map_cons, List.mem_cons] at h
    push_neg at h
    rw [lookupLast_cons, ih h.2]
    simp [Ne.symm h.1]

theorem lookupLast_eq_get_of_nodup (d : PDict) (hnd : (d.map Prod.fst).Nodup)
    (k : String) : lookupLast d k = PDict.get d k := by
  induction d with
  | nil => rfl
  | cons p t ih =>
    rw [List.map_cons, List.nodup_cons] at hnd
    rw [lookupLast_cons, PDict.get_cons]
    by_cases hp : p.1 = k
    · have hnone : lookupLast t k = none :=
        lookupLast_eq_none_of_not_mem t k (hp ▸ hnd.1)
      rw [hnone]
      simp [hp]
    · rw [← ih hnd.2]
      cases hl : lookupLast t k <;> simp [hp, hl]

/-! ### Characterization of the parameter merge -/

theorem foldl_update_filter (cs : List Context) (acc : PDict) :
    cs.foldl (fun acc c => if matchCtx c then PDict.update acc c.parameters else acc) acc
      = ((cs.filter matchCtx).map Context.parameters).foldl PDict.update acc := by
  induction cs generalizing acc with
  | nil => rfl
  | cons c t ih =>
    by_cases hc : matchCtx c
    · rw [List.foldl_cons, if_pos hc, List.filter_cons_of_pos hc, List.map_cons,
        List.foldl_cons, ih]
    · rw [List.foldl_cons, if_neg hc, List.filter_cons_of_neg hc, ih]

theorem get_foldl_update (ds : List PDict) (acc : PDict) (k : String) :
    ((ds.foldl PDict.update acc).get k) = oalt (lookupLast ds.flatten k) (acc.get k) := by
  induction ds generalizing acc with
  | nil => rfl
  | cons d t ih =>
    rw [List.foldl_cons, ih, List.flatten_cons, lookupLast_append,
      PDict.get_update, oalt_assoc]

theorem get_merged_eq (query_result : QueryResult) (k : String) :
    (get_merged_parameters query_result).get k =
      oalt (lookupLast query_result.parameters k)
        (lookupLast (matchingContextParams query_result) k) := by
  unfold get_merged_parameters matchingContextParams
  rw [PDict.get_update, foldl_update_filter, get_foldl_update, PDict.get_nil,
    oalt_none_right]

/-! ### Branch lemmas for the webhook dispatch -/

theorem webhook_home (r : WebhookRequest) (h : loanTypeOf r = some (.vStr "home")) :
    loan_eligibility_webhook r = evalHome (ageOf r) (incomeOf r) := by
  unfold loan_eligibility_webhook
  rw [h, if_pos rfl]

theorem webhook_car (r : WebhookRequest) (h : loanTypeOf r = some (.vStr "car")) :
    loan_eligibility_webhook r = evalCar (ageOf r) (incomeOf r) := by
  unfold loan_eligibility_webhook
  rw [h, if_neg (by decide), if_pos rfl]

theorem webhook_personal (r : WebhookRequest)
    (h : loanTypeOf r = some (.vStr "personal")) :
    loan_eligibility_webhook r = evalPersonal (ageOf r) (incomeOf r) := by
  unfold loan_eligibility_webhook
  rw [h, if_neg (by decide), if_neg (by decide), if_pos rfl]

theorem webhook_education (r : WebhookRequest)
    (h : loanTypeOf r = some (.vStr "education")) :
    loan_eligibility_webhook r = evalEducation (ageOf r) (qualificationOf r) := by
  unfold loan_eligibility_webhook
  rw [h, if_neg (by decide), if_neg (by decide), if_neg (by decide), if_pos rfl]

theorem webhook_business (r : WebhookRequest)
    (h : loanTypeOf r = some (.vStr "business")) :
    loan_eligibility_webhook r = evalBusiness (incomeOf r) := by
  unfold loan_eligibility_webhook
  rw [h, if_neg (by decide), if_neg (by decide), if_neg (by decide),
    if_neg (by decide), if_pos rfl]

theorem webhook_undetermined (r : WebhookRequest) (h : loanTypeOf r = none) :
    loan_eligibility_webhook r = some undeterminedMsg := by
  unfold loan_eligibility_webhook
  rw [h, if_neg (by decide), if_neg (by decide), if_neg (by decide),
    if_neg (by decide), if_neg (by decide)]

/-! ### Evaluation lemmas for the eligibility branches -/

theorem unwrapValue_eq_claimed (v : Value) : unwrapValue v = unwrapClaimed v := by
  cases v with
  | vList xs => cases xs <;> rfl
  | vNull => rfl
  | vBool b => rfl
  | vInt n => rfl
  | vStr s => rfl
  | vDict fs => rfl

theorem evalHome_coerce (a i : Value) (ia ii : Int)
    (hia : pyInt a = some ia) (hii : pyInt i = some ii) :
    evalHome (some a) (some i)
      = some (if ia ≥ 21 ∧ ii ≥ 30000 then homeEligibleMsg else homeIneligibleMsg) := by
  simp only [evalHome, hia, hii]
  by_cases h1 : ia ≥ 21
  · by_cases h2 : ii ≥ 30000 <;> simp [h1, h2]
  · simp [h1]

theorem evalCar_coerce (a i : Value) (ia ii : Int)
    (hia : pyInt a = some ia) (hii : pyInt i = some ii) :
    evalCar (some a) (some i)
      = some (if ia ≥ 18 ∧ ii ≥ 20000 then carEligibleMsg else carIneligibleMsg) := by
  simp only [evalCar, hia, hii]
  by_cases h1 : ia ≥ 18
  · by_cases h2 : ii ≥ 20000 <;> simp [h1, h2]
  · simp [h1]

theorem evalPersonal_coerce (a i : Value) (ia ii : Int)
    (hia : pyInt a = some ia) (hii : pyInt i = some ii) :
    evalPersonal (some a) (some i)
      = some (if ia ≥ 25 ∧ ii ≥ 25000 then personalEligibleMsg else personalIneligibleMsg) := by
  simp only [evalPersonal, hia, hii]
  by_cases h1 : ia ≥ 25
  · by_cases h2 : ii ≥ 25000 <;> simp [h1, h2]
  · simp [h1]

theorem evalEducation_coerce (a q : Value) (ia : Int) (hia : pyInt a = some ia) :
    evalEducation (some a) (some q)
      = some (if strContains (strToLower (pyStr q)) "graduate" = true ∧ ia ≤ 30
          then eduEligibleMsg else eduIneligibleMsg) := by
  simp only [evalEducation, hia]
  by_cases hg : strContains (strToLower (pyStr q)) "graduate"
  · by_cases h30 : ia ≤ 30 <;> simp [hg, h30]
  · simp [hg]

theorem evalBusiness_coerce (i : Value) (ii : Int) (hii : pyInt i = some ii) :
    evalBusiness (some i)
      = some (if ii ≥ 40000 then bizEligibleMsg else bizIneligibleMsg) := by
  simp only [evalBusiness, hii]

/-! ### The claims -/

/-- C1: for every request whose derived loan type is home, car or personal
and whose extracted age and income are both non-null (with the integer
coercions of age and income defined, as the integer coercion the claim
compares presupposes), the response is the eligible message exactly when
the coerced values meet the thresholds — home: age at least 21 and income
at least 30000; car: 18 and 20000; personal: 25 and 25000 — and the fixed
ineligible message otherwise. -/
theorem claim_c1 (r : WebhookRequest) (a i : Value) (ia ii : Int)
    (hage : ageOf r = some a) (hinc : incomeOf r = some i)
    (hia : pyInt a = some ia) (hii : pyInt i = some ii) :
    (loanTypeOf r = some (.vStr "home") →
      loan_eligibility_webhook r
        = some (if ia ≥ 21 ∧ ii ≥ 30000 then homeEligibleMsg else homeIneligibleMsg))
    ∧ (loanTypeOf r = some (.vStr "car") →
      loan_eligibility_webhook r
        = some (if ia ≥ 18 ∧ ii ≥ 20000 then carEligibleMsg else carIneligibleMsg))
    ∧ (loanTypeOf r = some (.vStr "personal") →
      loan_eligibility_webhook r
        = some (if ia ≥ 25 ∧ ii ≥ 25000 then personalEligibleMsg else personalIneligibleMsg)) := by
  refine ⟨fun h => ?_, fun h => ?_, fun h => ?_⟩
  · rw [webhook_home r h, hage, hinc, evalHome_coerce a i ia ii hia hii]
  · rw [webhook_car r h, hage, hinc, evalCar_coerce a i ia ii hia hii]
  · rw [webhook_personal r h, hage, hinc, evalPersonal_coerce a i ia ii hia hii]

/-- C1 witness: the home request with age 25 and income 35000 satisfies all
hypotheses and is answered with the home success message. -/
theorem claim_c1_witness :
    loan_eligibility_webhook homeOkReq = some homeEligibleMsg := by
  have h := (claim_c1 homeOkReq (.vInt 25) (.vInt 35000) 25 35000
    (by decide) (by decide) rfl rfl).1 (by decide)
  rwa [if_pos (by decide)] at h

/-- C2: for every request whose derived loan type is education and whose
extracted age and qualification are both non-null (with the age coercion
defined), the response is the eligible message exactly when the
qualification text contains "graduate" case-insensitively and the coerced
age is at most 30, the fixed ineligible message otherwise; in particular
qualification "Under Graduate" at age 30 is eligible, "High School" at 30
and "Post Graduate" at 31 are not. -/
theorem claim_c2 (r : WebhookRequest) (a q : Value) (ia : Int)
    (hage : ageOf r = some a) (hq : qualificationOf r = some q)
    (hia : pyInt a = some ia) :
    (loanTypeOf r = some (.vStr "education") →
      loan_eligibility_webhook r
        = some (if strContains (strToLower (pyStr q)) "graduate" = true ∧ ia ≤ 30
            then eduEligibleMsg else eduIneligibleMsg))
    ∧ loan_eligibility_webhook eduReqUG = some eduEligibleMsg
    ∧ loan_eligibility_webhook eduReqHS = some eduIneligibleMsg
    ∧ loan_eligibility_webhook eduReqPG31 = some eduIneligibleMsg := by
  refine ⟨fun h => ?_, by decide, by decide, by decide⟩
  rw [webhook_education r h, hage, hq, evalEducation_coerce a q ia hia]

/-- C2 witness: the "Under Graduate" at age 30 request discharges every
hypothesis and yields the education success message. -/
theorem claim_c2_witness :
    loan_eligibility_webhook eduReqUG = some eduEligibleMsg := by
  have h := (claim_c2 eduReqUG (.vInt 30) (.vStr "Under Graduate") 30
    (by decide) (by decide) rfl).1 (by decide)
  rwa [if_pos ⟨by decide, by decide⟩] at h

/-- C3: for every request whose derived loan type is business, the verdict
depends only on the extracted income: income null gives the business
missing-info prompt; income non-null (with its coercion defined) gives the
eligible message exactly when the coerced income is at least 40000 and the
ineligible message otherwise; and any two business requests with the same
extracted income get the same response. -/
theorem claim_c3 (r : WebhookRequest)
    (hlt : loanTypeOf r = some (.vStr "business")) :
    (incomeOf r = none → loan_eligibility_webhook r = some bizMissingMsg)
    ∧ (∀ (i : Value) (ii : Int), incomeOf r = some i → pyInt i = some ii →
        loan_eligibility_webhook r
          = some (if ii ≥ 40000 then bizEligibleMsg else bizIneligibleMsg))
    ∧ (∀ r' : WebhookRequest, loanTypeOf r' = some (.vStr "business") →
        incomeOf r' = incomeOf r →
        loan_eligibility_webhook r' = loan_eligibility_webhook r) := by
  refine ⟨fun hnone => ?_, fun i ii hi hii => ?_, fun r' hlt' hinc => ?_⟩
  · rw [webhook_business r hlt, hnone]
    rfl
  · rw [webhook_business r hlt, hi, evalBusiness_coerce i ii hii]
  · rw [webhook_business r hlt, webhook_business r' hlt', hinc]

/-- C3 witness: business requests with income 40000 and 39999 discharge the
hypotheses and land on either side of the threshold. -/
theorem claim_c3_witness :
    loan_eligibility_webhook bizReq40000 = some bizEligibleMsg
    ∧ loan_eligibility_webhook bizReq39999 = some bizIneligibleMsg := by
  constructor
  · have h := (claim_c3 bizReq40000 (by decide)).2.1 (.vInt 40000) 40000 (by decide) rfl
    rwa [if_pos (by decide)] at h
  · have h := (claim_c3 bizReq39999 (by decide)).2.1 (.vInt 39999) 39999 (by decide) rfl
    rwa [if_neg (by decide)] at h

/-- C4: for every request with a determined loan type, whenever a required
attribute of that product extracts to null the response is the missing-info
prompt of the product — which differs from its ineligible message — and a
raw empty-string age also routes to the prompt. -/
theorem claim_c4 (r : WebhookRequest) :
    (loanTypeOf r = some (.vStr "home") → (ageOf r = none ∨ incomeOf r = none) →
      loan_eligibility_webhook r = some homeMissingMsg
        ∧ homeMissingMsg ≠ homeIneligibleMsg)
    ∧ (loanTypeOf r = some (.vStr "car") → (ageOf r = none ∨ incomeOf r = none) →
      loan_eligibility_webhook r = some carMissingMsg
        ∧ carMissingMsg ≠ carIneligibleMsg)
    ∧ (loanTypeOf r = some (.vStr "personal") → (ageOf r = none ∨ incomeOf r = none) →
      loan_eligibility_webhook r = some personalMissingMsg
        ∧ personalMissingMsg ≠ personalIneligibleMsg)
    ∧ (loanTypeOf r = some (.vStr "education") →
        (ageOf r = none ∨ qualificationOf r = none) →
      loan_eligibility_webhook r = some eduMissingMsg
        ∧ eduMissingMsg ≠ eduIneligibleMsg)
    ∧ (loanTypeOf r = some (.vStr "business") → incomeOf r = none →
      loan_eligibility_webhook r = some bizMissingMsg
        ∧ bizMissingMsg ≠ bizIneligibleMsg)
    ∧ loan_eligibility_webhook homeEmptyAgeReq = some homeMissingMsg := by
  refine ⟨fun h hm => ⟨?_, by decide⟩, fun h hm => ⟨?_, by decide⟩,
    fun h hm => ⟨?_, by decide⟩, fun h hm => ⟨?_, by decide⟩,
    fun h hm => ⟨?_, by decide⟩, by decide⟩
  · rw [webhook_home r h]
    rcases hm with hm | hm
    · rw [hm]
      cases hi : incomeOf r <;> rfl
    · rw [hm]
      cases ha : ageOf r <;> rfl
  · rw [webhook_car r h]
    rcases hm with hm | hm
    · rw [hm]
      cases hi : incomeOf r <;> rfl
    · rw [hm]
      cases ha : ageOf r <;> rfl
  · rw [webhook_personal r h]
    rcases hm with hm | hm
    · rw [hm]
      cases hi : incomeOf r <;> rfl
    · rw [hm]
      cases ha : ageOf r <;> rfl
  · rw [webhook_education r h]
    rcases hm with hm | hm
    · rw [hm]
      cases hq : qualificationOf r <;> rfl
    · rw [hm]
      cases ha : ageOf r <;> rfl
  · rw [webhook_business r h, hm]
    rfl

/-- C4 witness: a home request missing the age is answered with the home
missing-info prompt. -/
theorem claim_c4_witness :
    loan_eligibility_webhook homeMissReq = some homeMissingMsg :=
  ((claim_c4 homeMissReq).1 (by decide) (Or.inl (by decide))).1

/-- C5: for every query and every key bound by the current turn, the merged
mapping binds that key to the current-turn value; a context value never
overrides it.  (A Python dict has no duplicate keys, whence the
no-duplicates hypothesis on the current-turn parameter list.) -/
theorem claim_c5 (query_result : QueryResult) (k : String) (v : Value)
    (hnodup : (query_result.parameters.map Prod.fst).Nodup)
    (hk : PDict.get query_result.parameters k = some v) :
    PDict.get (get_merged_parameters query_result) k = some v := by
  rw [get_merged_eq, lookupLast_eq_get_of_nodup query_result.parameters hnodup, hk]
  rfl

/-- C5 witness: context income 10000 versus current-turn income 50000 —
the merged income is 50000. -/
theorem claim_c5_witness :
    PDict.get (get_merged_parameters overrideQuery) "income" = some (.vInt 50000) :=
  claim_c5 overrideQuery "income" (.vInt 50000) (by decide) (by decide)

/-- C6: the merge overlays exactly the contexts matched by `matchCtx`
(name contains the marker substring, parameters non-empty), folded in list
order, under the current turn; on lookups, the current turn wins, then the
last binding within the concatenated parameters of the matching contexts,
and non-matching contexts contribute nothing. -/
theorem claim_c6 (query_result : QueryResult) (k : String) :
    get_merged_parameters query_result
      = PDict.update
          (((query_result.output_contexts.filter matchCtx).map Context.parameters).foldl
            PDict.update [])
          query_result.parameters
    ∧ (get_merged_parameters query_result).get k
        = oalt (lookupLast query_result.parameters k)
            (lookupLast (matchingContextParams query_result) k) := by
  constructor
  · unfold get_merged_parameters
    rw [foldl_update_filter]
  · exact get_merged_eq query_result k

/-- C7: loan-type derivation is first-match-wins over the ordered checklist,
an explicit truthy loan-type is returned verbatim, and when no key applies
the loan type is undetermined and the response is the fixed prompt. -/
theorem claim_c7 (r : WebhookRequest) :
    (truthyKey (mergedOf r) "loan-type" = true →
      loanTypeOf r = PDict.get (mergedOf r) "loan-type")
    ∧ (truthyKey (mergedOf r) "loan-type" = false →
        truthyKey (mergedOf r) "Home_eligibility" = true →
        loanTypeOf r = some (.vStr "home"))
    ∧ (truthyKey (mergedOf r) "loan-type" = false →
        truthyKey (mergedOf r) "Home_eligibility" = false →
        truthyKey (mergedOf r) "Car_eligibility" = true →
        loanTypeOf r = some (.vStr "car"))
    ∧ (truthyKey (mergedOf r) "loan-type" = false →
        truthyKey (mergedOf r) "Home_eligibility" = false →
        truthyKey (mergedOf r) "Car_eligibility" = false →
        (truthyKey (mergedOf r) "education_eligibility" = true
          ∨ truthyKey (mergedOf r) "edu_eligibility" = true) →
        loanTypeOf r = some (.vStr "education"))
    ∧ (truthyKey (mergedOf r) "loan-type" = false →
        truthyKey (mergedOf r) "Home_eligibility" = false →
        truthyKey (mergedOf r) "Car_eligibility" = false →
        truthyKey (mergedOf r) "education_eligibility" = false →
        truthyKey (mergedOf r) "edu_eligibility" = false →
        truthyKey (mergedOf r) "personal_eligibility" = true →
        loanTypeOf r = some (.vStr "personal"))
    ∧ (truthyKey (mergedOf r) "loan-type" = false →
        truthyKey (mergedOf r) "Home_eligibility" = false →
        truthyKey (mergedOf r) "Car_eligibility" = false →
        truthyKey (mergedOf r) "education_eligibility" = false →
        truthyKey (mergedOf r) "edu_eligibility" = false →
        truthyKey (mergedOf r) "personal_eligibility" = false →
        truthyKey (mergedOf r) "Business_eligibility" = true →
        loanTypeOf r = some (.vStr "business"))
    ∧ (truthyKey (mergedOf r) "loan-type" = false →
        truthyKey (mergedOf r) "Home_eligibility" = false →
        truthyKey (mergedOf r) "Car_eligibility" = false →
        truthyKey (mergedOf r) "education_eligibility" = false →
        truthyKey (mergedOf r) "edu_eligibility" = false →
        truthyKey (mergedOf r) "personal_eligibility" = false →
        truthyKey (mergedOf r) "Business_eligibility" = false →
        loanTypeOf r = none
          ∧ loan_eligibility_webhook r = some undeterminedMsg) := by
  refine ⟨fun h1 => ?_, fun h1 h2 => ?_, fun h1 h2 h3 => ?_,
    fun h1 h2 h3 h4 => ?_, fun h1 h2 h3 h4 h5 h6 => ?_,
    fun h1 h2 h3 h4 h5 h6 h7 => ?_, fun h1 h2 h3 h4 h5 h6 h7 => ?_⟩
  · unfold loanTypeOf determine_loan_type
    rw [h1]
    simp
  · unfold loanTypeOf determine_loan_type
    rw [h1, h2]
    simp
  · unfold loanTypeOf determine_loan_type
    rw [h1, h2, h3]
    simp
  · unfold loanTypeOf determine_loan_type
    rcases h4 with h4 | h4
    · rw [h1, h2, h3, h4]
      simp
    · rw [h1, h2, h3, h4]
      cases he : truthyKey (mergedOf r) "education_eligibility" <;> simp [he]
  · unfold loanTypeOf determine_loan_type
    rw [h1, h2, h3, h4, h5, h6]
    simp
  · unfold loanTypeOf determine_loan_type
    rw [h1, h2, h3, h4, h5, h6, h7]
    simp
  · have hnone : loanTypeOf r = none := by
      unfold loanTypeOf determine_loan_type
      rw [h1, h2, h3, h4, h5, h6, h7]
      simp
    exact ⟨hnone, webhook_undetermined r hnone⟩

/-- C7 witness: with both the home and the car flags set, the earlier check
in the ordered chain decides and the loan type is home; and a request with
none of the keys gets the fixed undetermined prompt. -/
theorem claim_c7_witness :
    loanTypeOf twoFlagsReq = some (.vStr "home")
    ∧ loan_eligibility_webhook noFlagsReq = some undeterminedMsg :=
  ⟨(claim_c7 twoFlagsReq).2.1 (by decide) (by decide),
    ((claim_c7 noFlagsReq).2.2.2.2.2.2 (by decide) (by decide) (by decide)
      (by decide) (by decide) (by decide) (by decide)).2⟩

/-- C8 counterexample: with primary key "age" absent, fallback key the empty
string, and a mapping binding the empty-string key to 5, the code returns
null (Python treats the empty fallback name as falsy and never consults
it), while the claim as stated resolves the fallback key and returns 5. -/
theorem claim_c8_counterexample :
    get_parameter [("", .vInt 5)] "age" (some "")
      ≠ getParameterClaimed [("", .vInt 5)] "age" (some "") := by decide

/-- C8 (amended): `get_parameter` resolves the primary key, consulting the
fallback key only when the primary is absent or null and the fallback name
is a non-empty string, then unwraps as the claim enumerates; in particular
a structured amount object yields its amount and a non-empty list its
first element. -/
theorem claim_c8 :
    (∀ (params : PDict) (param_name : String) (fallback_name : Option String),
      get_parameter params param_name fallback_name
        = getParameterAmended params param_name fallback_name)
    ∧ get_parameter
        [("income", .vDict [("amount", .vInt 45000), ("currency", .vStr "INR")])]
        "income" (some "number") = some (.vInt 45000)
    ∧ get_parameter [("qualification", .vList [.vStr "graduate"])]
        "qualification" none = some (.vStr "graduate") := by
  refine ⟨fun params param_name fallback_name => ?_, by decide, by decide⟩
  have hA : getParameterAmended params param_name fallback_name
      = (resolveParam params param_name fallback_name).bind unwrapClaimed := rfl
  rw [hA]
  show (resolveParam params param_name fallback_name).bind unwrapValue = _
  cases resolveParam params param_name fallback_name with
  | none => rfl
  | some v => exact unwrapValue_eq_claimed v

/-- C9: the claim says the handler never raises for any input, but a
non-numeric age string reaching `int` makes the Python handler raise
`ValueError` — modelled as the webhook producing no response — even though
age and income were extracted non-null. -/
theorem claim_c9_bug :
    loan_eligibility_webhook nonNumericAgeReq = none
    ∧ ageOf nonNumericAgeReq = some (.vStr "abc")
    ∧ incomeOf nonNumericAgeReq = some (.vInt 30000) := by decide

/-- C10: whenever the looked-up key resolves to an empty list,
`get_parameter` returns the empty list itself rather than null; so an
education request with an empty-list qualification reaches the comparison
branch (ineligible message, not the missing-info prompt), and a business
request with an empty-list income reaches the comparison branch where the
integer coercion raises. -/
theorem claim_c10 (params : PDict) (param_name : String)
    (fallback_name : Option String)
    (hres : resolveParam params param_name fallback_name = some (.vList [])) :
    get_parameter params param_name fallback_name = some (.vList [])
    ∧ loan_eligibility_webhook eduEmptyListReq = some eduIneligibleMsg
    ∧ eduIneligibleMsg ≠ eduMissingMsg
    ∧ loan_eligibility_webhook bizEmptyListReq = none := by
  refine ⟨?_, by decide, by decide, by decide⟩
  show (resolveParam params param_name fallback_name).bind unwrapValue = _
  rw [hres]
  rfl

/-- C10 witness: an age supplied as the empty list is returned as the empty
list itself. -/
theorem claim_c10_witness :
    get_parameter [("age", .vList [])] "age" (some "number") = some (.vList []) :=
  (claim_c10 [("age", .vList [])] "age" (some "number") (by decide)).1
